import Mathlib

/-!
Shallow embedding of `git-pack/src/multi_index/verify.rs`
(`File::verify_checksum`, `File::verify_integrity` and the `integrity`
error/outcome types) and of `git-worktree/src/fs/stack.rs`
(`Stack::make_relative_path_current`).

Machine integers (`u32`, `u64`, `usize`) are modelled as `Nat`: every value
involved is a count, an index or an offset the code never wraps. Object ids
are fixed-width byte strings whose `cmp` is byte-lexicographic, which on a
fixed width coincides with the numeric order of the big-endian value, so
they are modelled as `Nat` with the usual order. Paths are modelled as what
the code observes of them. External collaborators (checksum primitive, fan
validator, bundle opening/lookup/verification, progress reporting) live
outside this repository slice; each is modelled from the spec and marked
`Modelled from the spec:`. Progress reporting is pure telemetry with no
influence on control flow or results and is not modelled.
-/

namespace Gitoxide

/-- Error of the external checksum primitive
(`crate::verify::checksum::Error`). Modelled from the spec: the primitive
compares a stored trailer hash against the recomputed content hash and must
observe the cancellation flag, failing fast with a dedicated cancellation
indicator. -/
inductive ChecksumError where
  | interrupted
  | mismatch (expected actual : Nat)
deriving DecidableEq, Repr

/-- Processor error of the single-pack verifier
(`crate::index::verify::integrity::Error`). External to this slice; opaque
token. -/
abbrev IndexIntegrityError := Nat

/-- Error of `crate::Bundle::at` (`crate::bundle::init::Error`). External to
this slice; opaque token. -/
abbrev BundleInitError := Nat

/-- `multi_index::verify::integrity::Error` (verify.rs lines 13-36). -/
inductive IntegrityError where
  | packOffsetMismatch (id expected_pack_offset actual_pack_offset : Nat)
  | multiIndexChecksum (e : ChecksumError)
  | indexIntegrity (e : IndexIntegrityError)
  | bundleInit (e : BundleInitError)
  | unexpectedObjectCount (actual expected : Nat)
  | oidNotFound (id : Nat)
  | outOfOrder (index : Nat)
  | fan (index : Nat)
  | empty
deriving DecidableEq, Repr

/-- `crate::index::traverse::Error<E>` with exactly the variants and fields
visible in the remapping match of verify.rs lines 200-233. Payloads of
external error types are opaque `Nat` tokens; object ids, offsets, CRC
values and object kinds are `Nat`. -/
inductive TraverseError (E : Type) where
  | processor (e : E)
  | verifyChecksum (e : ChecksumError)
  | tree (e : Nat)
  | treeTraversal (e : Nat)
  | packDecode (id offset source : Nat)
  | packMismatch (expected actual : Nat)
  | packObjectMismatch (expected actual offset kind : Nat)
  | crc32Mismatch (expected actual offset kind : Nat)
  | interrupted
deriving DecidableEq, Repr

/-- The error remapping applied to the delegated
`bundle.verify_integrity` result (verify.rs lines 200-233): the `match err`
inside `map_err`. -/
def mapBundleError : TraverseError IndexIntegrityError → TraverseError IntegrityError
  | .processor e => .processor (.indexIntegrity e)
  | .verifyChecksum e => .verifyChecksum e
  | .tree e => .tree e
  | .treeTraversal e => .treeTraversal e
  | .packDecode id offset source => .packDecode id offset source
  | .packMismatch expected actual => .packMismatch expected actual
  | .packObjectMismatch expected actual offset kind =>
      .packObjectMismatch expected actual offset kind
  | .crc32Mismatch expected actual offset kind =>
      .crc32Mismatch expected actual offset kind
  | .interrupted => .interrupted

/-- The in-memory multi-pack index (`crate::multi_index::File`) as observed
by `verify_integrity`: each entry row carries (object id, pack id,
pack offset); `index_names` is the ordered list of per-pack index file
names; `path_has_parent` records whether `self.path.parent()` is `Some`;
`stored_checksum` is the trailer hash and `content_hash` the hash the
external primitive would recompute over the file's contents. -/
structure MultiIndexFile where
  path_has_parent : Bool
  stored_checksum : Nat
  content_hash : Nat
  fan_table : List Nat
  entries : List (Nat × Nat × Nat)
  index_names : List String
deriving Repr

/-- `self.num_objects`: the declared object count of the loaded file. -/
def MultiIndexFile.num_objects (f : MultiIndexFile) : Nat := f.entries.length

/-- `self.oid_at_index(i)`. -/
def MultiIndexFile.oid_at_index (f : MultiIndexFile) (i : Nat) : Nat :=
  (f.entries.getD i (0, 0, 0)).1

/-- `self.pack_id_and_pack_offset_at_index(i)`. -/
def MultiIndexFile.pack_id_and_pack_offset_at_index (f : MultiIndexFile) (i : Nat) :
    Nat × Nat :=
  (f.entries.getD i (0, 0, 0)).2

/-- Modelled from the spec: the external checksum primitive
`crate::verify::checksum_on_disk_or_mmap`. It observes the cancellation
flag and fails fast with the cancellation indicator; otherwise it compares
the stored trailer hash with the recomputed content hash and returns the
recomputed hash on success. -/
def checksum_on_disk_or_mmap (stored content : Nat) (interrupted : Bool) :
    Except ChecksumError Nat :=
  if interrupted then .error .interrupted
  else if stored ≠ content then .error (.mismatch stored content)
  else .ok content

/-- `File::verify_checksum` (verify.rs lines 58-71): delegates to the
checksum primitive on the file's own data; `interrupted` is the value of
`should_interrupt` as sampled by that pass. -/
def MultiIndexFile.verify_checksum (f : MultiIndexFile) (interrupted : Bool) :
    Except ChecksumError Nat :=
  checksum_on_disk_or_mmap f.stored_checksum f.content_hash interrupted

/-- Modelled from the spec (and the `Fan` error message): the external
`crate::verify::fan` validator scans adjacent fan buckets in order and
returns the index of the first bucket whose value is larger than the
following value, `none` when the table is monotone. -/
def fanCheckFrom : Nat → List Nat → Option Nat
  | _, [] => none
  | _, [_] => none
  | i, a :: b :: rest => if b < a then some i else fanCheckFrom (i + 1) (b :: rest)

/-- Entry point of the fan validator on a fan table. -/
def fanCheck (fan : List Nat) : Option Nat := fanCheckFrom 0 fan

/-- Modelled from the spec: a pack's own index, the bundle's ground truth —
a table of (object id, pack offset) rows. -/
abbrev BundleIndex := List (Nat × Nat)

/-- Modelled from the spec: `bundle.index.lookup(oid)` returns the entry
index of the object id in the pack's own index, `none` when absent. -/
def bundleLookup (b : BundleIndex) (oid : Nat) : Option Nat :=
  b.findIdx? (fun e => e.1 == oid)

/-- Modelled from the spec: `bundle.index.pack_offset_at_index(i)`. -/
def bundlePackOffsetAtIndex (b : BundleIndex) (i : Nat) : Nat :=
  (b.getD i (0, 0)).2

/-- Environment supplying the results of the external bundle operations,
keyed by pack id (the position in `index_names`): `bundles` is the result
of `crate::Bundle::at` on the pack's index path (`Except.error` models an
init failure), `bundleVerify` the result the delegated
`bundle.verify_integrity` produces when it is not interrupted. -/
structure Env where
  bundles : Nat → Except BundleInitError BundleIndex
  bundleVerify : Nat → Except (TraverseError IndexIntegrityError) Nat

/-- Modelled from the spec: the delegated `bundle.verify_integrity` must
observe the cancellation flag and surface the dedicated cancellation
signal. `itr k` is the flag's value at the k-th sampling point of the whole
run: point 0 is the multi-index checksum pass, point `packId + 1` this
pack's delegated verification. The per-entry lookup loop has no sampling
point, matching verify.rs lines 165-182. -/
def Env.bundleVerifyAt (env : Env) (itr : Nat → Bool) (packId : Nat) :
    Except (TraverseError IndexIntegrityError) Nat :=
  if itr (packId + 1) then .error .interrupted else env.bundleVerify packId

/-- Result of a Rust function that may panic: `panicked` models an
`expect`/`assert_eq!` process abort, `err` an `Err` return, `ok` an `Ok`
return. -/
inductive VResult (α : Type) where
  | panicked (msg : String)
  | err (e : TraverseError IntegrityError)
  | ok (a : α)
deriving DecidableEq, Repr

/-- `multi_index::verify::integrity::Outcome` (verify.rs lines 39-46),
without the pass-through progress handle: the matched checksum and the
per-pack traversal outcomes (opaque `Nat` tokens), one per `index_names`
entry. -/
structure MultiOutcome where
  actual_index_checksum : Nat
  pack_traverse_outcomes : List Nat
deriving DecidableEq, Repr

/-- Ordering-and-collection loop of verify_integrity (verify.rs lines
129-141) over the list of entry indices `0..num_objects-1`: each oid must
compare strictly greater than its predecessor (`rhs.cmp(lhs) !=
Ordering::Greater` raises `OutOfOrder` at the offending index), and on the
way each entry's `(pack_id, entry_index)` pair is recorded. -/
def oidOrderLoop (f : MultiIndexFile) : List Nat → Except Nat (List (Nat × Nat))
  | [] => .ok []
  | i :: rest =>
    if f.oid_at_index (i + 1) ≤ f.oid_at_index i then .error i
    else
      match oidOrderLoop f rest with
      | .error j => .error j
      | .ok tail => .ok (((f.pack_id_and_pack_offset_at_index i).1, i) :: tail)

/-- Collection phase (verify.rs lines 127-146): run the pairwise loop, then
append the last entry's pair, which has no successor to compare against. -/
def oidOrderCollect (f : MultiIndexFile) : Except Nat (List (Nat × Nat)) :=
  match oidOrderLoop f (List.range (f.num_objects - 1)) with
  | .error i => .error i
  | .ok pairs =>
      .ok (pairs ++ [((f.pack_id_and_pack_offset_at_index (f.num_objects - 1)).1,
                      f.num_objects - 1)])

/-- Rust's `slice::partition_point(pred)` on a slice that is partitioned
with respect to `pred` (all elements satisfying it at the front): the
number of leading elements satisfying the predicate. The slices it is
applied to here are sorted by pack id, hence partitioned for the equality
predicate used. -/
def partitionPoint (p : α → Bool) (l : List α) : Nat := (l.takeWhile p).length

/-- Stable insertion of one `(pack_id, entry_index)` pair into an
accumulator already sorted by pack id: the new pair goes after every pair
whose pack id is ≤ its own. -/
def insertByPackId (x : Nat × Nat) : List (Nat × Nat) → List (Nat × Nat)
  | [] => [x]
  | y :: ys => if y.1 ≤ x.1 then y :: insertByPackId x ys else x :: y :: ys

/-- Rust's stable `sort_by(|l, r| l.0.cmp(&r.0))` (verify.rs line 148) as a
left-to-right stable insertion sort on the pack id. -/
def sortByPackId (l : List (Nat × Nat)) : List (Nat × Nat) :=
  l.foldl (fun acc x => insertByPackId x acc) []

/-- Per-entry lookup loop of verify_integrity (verify.rs lines 165-182) on
the entry indices grouped for the open pack: look each entry's oid up in
the pack's own index (`OidNotFound` when absent) and require the offset
found there to equal the multi-index's recorded offset
(`PackOffsetMismatch` otherwise). This loop samples no cancellation flag. -/
def checkEntries (f : MultiIndexFile) (bundle : BundleIndex) :
    List Nat → Except (TraverseError IntegrityError) Unit
  | [] => .ok ()
  | entry_id :: rest =>
    let oid := f.oid_at_index entry_id
    let expected_pack_offset := (f.pack_id_and_pack_offset_at_index entry_id).2
    match bundleLookup bundle oid with
    | none => .error (.processor (.oidNotFound oid))
    | some entry_in_bundle_index =>
      let actual_pack_offset := bundlePackOffsetAtIndex bundle entry_in_bundle_index
      if actual_pack_offset ≠ expected_pack_offset then
        .error (.processor (.packOffsetMismatch oid expected_pack_offset actual_pack_offset))
      else
        checkEntries f bundle rest

/-- Per-pack loop of verify_integrity (verify.rs lines 154-235): for each
pack id in `index_names` order, open the bundle, slice off the grouped
entries via `partition_point`, run the per-entry checks, accumulate the
checked-entry count, then run the delegated single-pack verification with
its error remapping, collecting its traversal outcome. Returns the final
count and the collected outcomes. -/
def packLoop (f : MultiIndexFile) (env : Env) (itr : Nat → Bool) :
    List Nat → List (Nat × Nat) → Nat → List Nat →
    Except (TraverseError IntegrityError) (Nat × List Nat)
  | [], _, total, outs => .ok (total, outs)
  | pack_id :: rest, slice, total, outs =>
    match env.bundles pack_id with
    | .error e => .error (.processor (.bundleInit e))
    | .ok bundle =>
      let slice_end := partitionPoint (fun e => e.1 == pack_id) slice
      let to_check := slice.take slice_end
      let slice' := slice.drop slice_end
      match checkEntries f bundle (to_check.map (fun e => e.2)) with
      | .error e => .error e
      | .ok _ =>
        match (env.bundleVerifyAt itr pack_id).mapError mapBundleError with
        | .error e => .error e
        | .ok outcome =>
            packLoop f env itr rest slice' (total + to_check.length) (outs ++ [outcome])

/-- `File::verify_integrity` (verify.rs lines 77-249). The sampling points
of `should_interrupt` are numbered as in `Env.bundleVerifyAt`: `itr 0` is
its value during the checksum pass and `itr (pack_id + 1)` during pack
`pack_id`'s delegated verification; the per-entry loop samples none, as in
the source. The `expect` on the parent directory and the final
`assert_eq!` surface as `VResult.panicked` with the source's message. -/
def verify_integrity (f : MultiIndexFile) (env : Env) (itr : Nat → Bool) :
    VResult MultiOutcome :=
  if f.path_has_parent = false then .panicked "must be in a directory"
  else
    match f.verify_checksum (itr 0) with
    | .error e => .err (.processor (.multiIndexChecksum e))
    | .ok actual_index_checksum =>
      match fanCheck f.fan_table with
      | some first_invalid => .err (.processor (.fan first_invalid))
      | none =>
        if f.num_objects = 0 then .err (.processor .empty)
        else
          match oidOrderCollect f with
          | .error i => .err (.processor (.outOfOrder i))
          | .ok pairs =>
            match packLoop f env itr (List.range f.index_names.length)
                (sortByPackId pairs) 0 [] with
            | .error e => .err e
            | .ok (total_objects_checked, pack_traverse_outcomes) =>
              if f.num_objects = total_objects_checked then
                .ok { actual_index_checksum := actual_index_checksum,
                      pack_traverse_outcomes := pack_traverse_outcomes }
              else .panicked "BUG: our slicing should allow to visit all objects"

/-- `crate::fs::Stack` (stack.rs): paths are modelled as lists of
components; `current` accumulates `root` plus the pushed components,
`current_relative` the pushed components only, and `valid_components`
counts them. -/
structure Stack where
  root : List String
  current : List String
  current_relative : List String
  valid_components : Nat
deriving DecidableEq, Repr

/-- `Stack::new(root)` (stack.rs lines 28-36). -/
def Stack.new (root : List String) : Stack :=
  { root := root, current := root, current_relative := [], valid_components := 0 }

/-- The `Delegate` trait of stack.rs (lines 18-23): a state machine over a
delegate state `σ`. Each fallible method returns its updated state together
with `some e` on an `io::Error` (an opaque `Nat` token) — the delegate is
`&mut self` in the source, so it keeps its state even when it errors. -/
structure Delegate (σ : Type) where
  dinit : σ → Stack → σ × Option Nat
  push_directory : σ → Stack → σ × Option Nat
  push : σ → Bool → Stack → σ × Option Nat
  pop_directory : σ → σ

/-- Length of the longest common prefix of two component lists: the
`matching_components` count computed by the peeking while-loop of stack.rs
lines 57-67. -/
def commonComponents : List String → List String → Nat
  | a :: as, b :: bs => if a = b then commonComponents as bs + 1 else 0
  | _, _ => 0

/-- The pop loop of `make_relative_path_current` (stack.rs lines 69-75):
pop `k` trailing components off `current` and `current_relative`, invoking
`pop_directory` on every round but the first (`popped_items > 0`). -/
def popLoop (d : Delegate σ) : Stack → σ → Nat → Nat → Stack × σ
  | s, st, _, 0 => (s, st)
  | s, st, popped_items, k + 1 =>
    let s' := { s with current := s.current.dropLast,
                       current_relative := s.current_relative.dropLast }
    let st' := if popped_items > 0 then d.pop_directory st else st
    popLoop d s' st' (popped_items + 1) k

/-- The state of the stack right after component `comp` has been pushed
(stack.rs lines 83-85): both path accumulators grow by the component and
the valid-component counter increments. -/
def pushComponent (s : Stack) (comp : String) : Stack :=
  { s with current := s.current ++ [comp],
           current_relative := s.current_relative ++ [comp],
           valid_components := s.valid_components + 1 }

/-- The push loop of `make_relative_path_current` (stack.rs lines 78-95):
for each remaining component, first notify `push_directory` when a previous
component was already pushed in this call (`pushed_items > 0`), then push
the component onto the stack, call the delegate's `push` with the
last-component flag, and on a push error roll the just-pushed component
back off `current`, `current_relative` and `valid_components` before
returning the error. Returns the final stack, the final delegate state and
`some e` on error. -/
def pushLoop (d : Delegate σ) : Stack → σ → Nat → List String → Stack × σ × Option Nat
  | s, st, _, [] => (s, st, none)
  | s, st, pushed_items, comp :: rest =>
    match (if pushed_items > 0 then d.push_directory st s else (st, none) :
           σ × Option Nat) with
    | (st1, some e) => (s, st1, some e)
    | (st1, none) =>
      let s1 := pushComponent s comp
      match d.push st1 rest.isEmpty s1 with
      | (st2, some e) =>
        ({ s1 with current := s1.current.dropLast,
                   current_relative := s1.current_relative.dropLast,
                   valid_components := s1.valid_components - 1 }, st2, some e)
      | (st2, none) => pushLoop d s1 st2 (pushed_items + 1) rest

/-- `Stack::make_relative_path_current` (stack.rs lines 42-97): call `init`
on first use, diff the requested relative path against the previous one,
pop the stale suffix, then push the new components through `pushLoop`.
Returns the final stack and delegate state together with `some e` when a
delegate call errored. -/
def make_relative_path_current (d : Delegate σ) (s : Stack) (st : σ)
    (relative : List String) : Stack × σ × Option Nat :=
  match (if s.valid_components = 0 then d.dinit st s else (st, none) :
         σ × Option Nat) with
  | (st0, some e) => (s, st0, some e)
  | (st0, none) =>
    let matching_components := commonComponents s.current_relative relative
    let (s1, st1) := popLoop d s st0 0 (s.valid_components - matching_components)
    let s2 := { s1 with valid_components := matching_components }
    pushLoop d s2 st1 0 (relative.drop matching_components)

/-! Fixtures used by witnesses. -/

/-- Trivial environment: every bundle opens with an empty index and every
delegated verification succeeds with outcome token 0. -/
def envTriv : Env := { bundles := fun _ => .ok [], bundleVerify := fun _ => .ok 0 }

/-- Cancellation flag never set. -/
def itrOff : Nat → Bool := fun _ => false

/-- A multi-index file whose path has no parent directory. -/
def c10File : MultiIndexFile :=
  { path_has_parent := false, stored_checksum := 3, content_hash := 3,
    fan_table := [], entries := [(1, 0, 0)], index_names := ["p0"] }

/-- A multi-index file whose stored trailer checksum disagrees with its
recomputed content hash, and which also carries an offset corruption that
must never surface. -/
def c5File : MultiIndexFile :=
  { path_has_parent := true, stored_checksum := 9, content_hash := 0,
    fan_table := [], entries := [(5, 0, 0), (3, 0, 1)], index_names := ["p0"] }

/-- A well-formed-but-empty multi-index file: zero declared objects. -/
def c8File : MultiIndexFile :=
  { path_has_parent := true, stored_checksum := 3, content_hash := 3,
    fan_table := [], entries := [], index_names := ["p0"] }

/-!
Claim theorems.
-/

/-- C10: `verify_integrity` is only total under the unstated precondition
that the multi-index's path has a parent directory: for every multi-index
whose path has no parent, the call panics (`expect`: "must be in a
directory") as its very first step — for every environment and every
cancellation-flag history — instead of returning any error value. -/
theorem claim_C10 (f : MultiIndexFile) (h : f.path_has_parent = false)
    (env : Env) (itr : Nat → Bool) :
    verify_integrity f env itr = .panicked "must be in a directory" := by
  simp [verify_integrity, h]

/-- Witness for C10 at a concrete parentless file. -/
theorem claim_C10_witness :
    verify_integrity c10File envTriv itrOff = .panicked "must be in a directory" :=
  claim_C10 c10File rfl envTriv itrOff

/-- C5: the multi-index's own checksum verification runs first: for every
file whose stored trailer checksum differs from the recomputed hash (and a
run that is not cancelled at that pass), the result is the checksum
mismatch error — uniformly in the environment, so no fan, emptiness,
ordering or per-pack check (in particular no `PackOffsetMismatch`) is ever
produced for that input. -/
theorem claim_C5 (f : MultiIndexFile) (env : Env) (itr : Nat → Bool)
    (hparent : f.path_has_parent = true)
    (hmismatch : f.stored_checksum ≠ f.content_hash)
    (hitr : itr 0 = false) :
    verify_integrity f env itr =
      .err (.processor (.multiIndexChecksum
        (.mismatch f.stored_checksum f.content_hash))) := by
  simp [verify_integrity, hparent, MultiIndexFile.verify_checksum,
        checksum_on_disk_or_mmap, hitr, hmismatch]

/-- Witness for C5 at a concrete corrupt-checksum file that also contains
an out-of-order table and a wrong offset: only the checksum error
surfaces. -/
theorem claim_C5_witness :
    verify_integrity c5File envTriv itrOff =
      .err (.processor (.multiIndexChecksum (.mismatch 9 0))) :=
  claim_C5 c5File envTriv itrOff rfl (by decide) rfl

/-- C8: for every multi-index that passes its checksum and fan-out checks
and declares `num_objects = 0`, `verify_integrity` returns the `Empty`
error — uniformly in the environment, so no entry is examined and no pack
is opened. -/
theorem claim_C8 (f : MultiIndexFile) (env : Env) (itr : Nat → Bool)
    (hparent : f.path_has_parent = true)
    (hck : f.stored_checksum = f.content_hash)
    (hitr : itr 0 = false)
    (hfan : fanCheck f.fan_table = none)
    (hempty : f.entries = []) :
    verify_integrity f env itr = .err (.processor .empty) := by
  simp [verify_integrity, hparent, MultiIndexFile.verify_checksum,
        checksum_on_disk_or_mmap, hitr, hck, hfan, MultiIndexFile.num_objects, hempty]

/-- Witness for C8 at a concrete empty multi-index. -/
theorem claim_C8_witness :
    verify_integrity c8File envTriv itrOff = .err (.processor .empty) :=
  claim_C8 c8File envTriv itrOff rfl rfl rfl rfl rfl

/-- C6: the remapping of the delegated single-pack verifier's error into
the orchestrator's error space is a pure mapping that is the identity on
every pass-through variant — cancellation, checksum, tree, tree-traversal,
pack-decode, pack-mismatch, pack-object-mismatch and CRC variants, all
fields preserved verbatim — and re-tags only the processor-specific
variant, `Processor(e)` becoming `Processor(IndexIntegrity(e))`. -/
theorem claim_C6 :
    (∀ e, mapBundleError (.processor e) = .processor (.indexIntegrity e)) ∧
    (∀ e, mapBundleError (.verifyChecksum e) = .verifyChecksum e) ∧
    (∀ e, mapBundleError (.tree e) = .tree e) ∧
    (∀ e, mapBundleError (.treeTraversal e) = .treeTraversal e) ∧
    (∀ id offset source,
      mapBundleError (.packDecode id offset source) = .packDecode id offset source) ∧
    (∀ expected actual,
      mapBundleError (.packMismatch expected actual) = .packMismatch expected actual) ∧
    (∀ expected actual offset kind,
      mapBundleError (.packObjectMismatch expected actual offset kind) =
        .packObjectMismatch expected actual offset kind) ∧
    (∀ expected actual offset kind,
      mapBundleError (.crc32Mismatch expected actual offset kind) =
        .crc32Mismatch expected actual offset kind) ∧
    mapBundleError .interrupted = .interrupted :=
  ⟨fun _ => rfl, fun _ => rfl, fun _ => rfl, fun _ => rfl,
   fun _ _ _ => rfl, fun _ _ => rfl, fun _ _ _ _ => rfl, fun _ _ _ _ => rfl, rfl⟩

/-- C9: in `make_relative_path_current`'s push loop, whenever the
delegate's `push` callback returns an error for a just-pushed component,
the loop returns that error unchanged and the returned stack is exactly
the stack from immediately before that component was pushed: `current`,
`current_relative` and `valid_components` (and `root`) are all restored. -/
theorem claim_C9 {σ : Type} (d : Delegate σ) (s : Stack) (st st1 st2 : σ)
    (n : Nat) (comp : String) (rest : List String) (e : Nat)
    (hdir : (if n > 0 then d.push_directory st s else (st, none)) = (st1, none))
    (hpush : d.push st1 rest.isEmpty (pushComponent s comp) = (st2, some e)) :
    pushLoop d s st n (comp :: rest) = (s, st2, some e) := by
  unfold pushLoop
  rw [hdir]
  simp only [pushComponent] at hpush ⊢
  rw [hpush]
  cases s with
  | mk root current current_relative valid_components =>
      simp [List.dropLast_concat]

/-- Delegate whose `push` always fails with error token 42 after bumping
its state by 100. -/
def c9Delegate : Delegate Nat :=
  { dinit := fun st _ => (st + 1, none),
    push_directory := fun st _ => (st, none),
    push := fun st _ _ => (st + 100, some 42),
    pop_directory := fun st => st }

/-- A concrete stack that already holds one valid component. -/
def c9Stack : Stack :=
  { root := ["r"], current := ["r", "a"], current_relative := ["a"],
    valid_components := 1 }

/-- Witness for C9: a failing push of component "b" rolls the stack back to
exactly `c9Stack` and returns error 42 unchanged. -/
theorem claim_C9_witness :
    pushLoop c9Delegate c9Stack 0 0 ["b", "c"] = (c9Stack, 100, some 42) :=
  claim_C9 c9Delegate c9Stack 0 0 100 0 "b" ["c"] 42 rfl rfl

/-- The ordering loop, run over the consecutive entry indices starting at
`s`, errors at the first index `i` whose successor oid is not strictly
greater, provided every earlier pair is strictly increasing. -/
theorem oidOrderLoop_error_at (f : MultiIndexFile) (i : Nat) :
    ∀ (n s : Nat), s ≤ i → i < s + n →
    (∀ j, j < i → f.oid_at_index j < f.oid_at_index (j + 1)) →
    f.oid_at_index (i + 1) ≤ f.oid_at_index i →
    oidOrderLoop f (List.range' s n) = .error i := by
  intro n
  induction n with
  | zero => intro s hsi hlt _ _; omega
  | succ n ih =>
    intro s hsi hlt hord hbad
    rw [List.range'_succ]
    by_cases hsi' : s = i
    · subst hsi'
      simp [oidOrderLoop, hbad]
    · have hslt : s < i := lt_of_le_of_ne hsi hsi'
      have hgood : ¬ f.oid_at_index (s + 1) ≤ f.oid_at_index s :=
        not_le_of_lt (hord s hslt)
      have hrec := ih (s + 1) (by omega) (by omega) hord hbad
      simp [oidOrderLoop, hgood, hrec]

/-- C4: the ordering pass walks entries `0..num_objects-1` pairwise over
the original table order; when all pairs before `i` are strictly
increasing and the object id at `i + 1` does not compare strictly greater
than the one at `i` (with `i` inside the walked range), `verify_integrity`
fails with `OutOfOrder` naming `i` — uniformly in the environment, hence
before any pack is opened. -/
theorem claim_C4 (f : MultiIndexFile) (itr : Nat → Bool) (i : Nat)
    (hparent : f.path_has_parent = true)
    (hck : f.stored_checksum = f.content_hash)
    (hitr : itr 0 = false)
    (hfan : fanCheck f.fan_table = none)
    (hord : ∀ j, j < i → f.oid_at_index j < f.oid_at_index (j + 1))
    (hbad : f.oid_at_index (i + 1) ≤ f.oid_at_index i)
    (hlt : i < f.num_objects - 1) (env : Env) :
    verify_integrity f env itr = .err (.processor (.outOfOrder i)) := by
  have hn0 : f.num_objects ≠ 0 := by omega
  have hloop : oidOrderLoop f (List.range' 0 (f.num_objects - 1)) = .error i :=
    oidOrderLoop_error_at f i (f.num_objects - 1) 0 (Nat.zero_le i) (by omega) hord hbad
  have hcollect : oidOrderCollect f = .error i := by
    unfold oidOrderCollect
    rw [List.range_eq_range', hloop]
  simp [verify_integrity, hparent, MultiIndexFile.verify_checksum,
        checksum_on_disk_or_mmap, hitr, hck, hfan, hn0, hcollect]

/-- A multi-index whose second oid is not greater than its first. -/
def c4File : MultiIndexFile :=
  { path_has_parent := true, stored_checksum := 0, content_hash := 0,
    fan_table := [], entries := [(5, 0, 0), (3, 0, 1)], index_names := ["p0"] }

/-- Witness for C4: the out-of-order pair at entry 0 is reported as
`OutOfOrder 0`. -/
theorem claim_C4_witness :
    verify_integrity c4File envTriv itrOff = .err (.processor (.outOfOrder 0)) :=
  claim_C4 c4File itrOff 0 rfl rfl rfl rfl (by omega) (by decide) (by decide) envTriv

/-- C3: during a pack's per-entry check, once the checks before an entry
have passed: if the pack's own index does not contain the entry's object
id, the loop fails with `OidNotFound` naming that id; if it contains the id
but at an offset different from the multi-index's recorded pack offset, the
loop fails with `PackOffsetMismatch` naming the object id, the
multi-index's expected offset and the pack index's actual offset. -/
theorem claim_C3 (f : MultiIndexFile) (bundle : BundleIndex)
    (pre : List Nat) (entry_id : Nat) (rest : List Nat)
    (hpre : checkEntries f bundle pre = .ok ()) :
    (bundleLookup bundle (f.oid_at_index entry_id) = none →
      checkEntries f bundle (pre ++ entry_id :: rest) =
        .error (.processor (.oidNotFound (f.oid_at_index entry_id)))) ∧
    (∀ j, bundleLookup bundle (f.oid_at_index entry_id) = some j →
      bundlePackOffsetAtIndex bundle j ≠
        (f.pack_id_and_pack_offset_at_index entry_id).2 →
      checkEntries f bundle (pre ++ entry_id :: rest) =
        .error (.processor (.packOffsetMismatch (f.oid_at_index entry_id)
          ((f.pack_id_and_pack_offset_at_index entry_id).2)
          (bundlePackOffsetAtIndex bundle j)))) := by
  induction pre with
  | nil =>
    constructor
    · intro hnone
      simp [checkEntries, hnone]
    · intro j hsome hne
      simp [checkEntries, hsome, hne]
  | cons p ps ih =>
    rw [checkEntries] at hpre
    constructor
    · intro hnone
      rw [List.cons_append, checkEntries]
      cases hl : bundleLookup bundle (f.oid_at_index p) with
      | none => rw [hl] at hpre; exact absurd hpre (by simp)
      | some k =>
        rw [hl] at hpre
        simp only at hpre ⊢
        by_cases hoff :
            bundlePackOffsetAtIndex bundle k ≠
              (f.pack_id_and_pack_offset_at_index p).2
        · rw [if_pos hoff] at hpre; exact absurd hpre (by simp)
        · rw [if_neg hoff] at hpre
          rw [if_neg hoff]
          exact (ih hpre).1 hnone
    · intro j hsome hne
      rw [List.cons_append, checkEntries]
      cases hl : bundleLookup bundle (f.oid_at_index p) with
      | none => rw [hl] at hpre; exact absurd hpre (by simp)
      | some k =>
        rw [hl] at hpre
        simp only at hpre ⊢
        by_cases hoff :
            bundlePackOffsetAtIndex bundle k ≠
              (f.pack_id_and_pack_offset_at_index p).2
        · rw [if_pos hoff] at hpre; exact absurd hpre (by simp)
        · rw [if_neg hoff] at hpre
          rw [if_neg hoff]
          exact (ih hpre).2 j hsome hne

/-- A multi-index over one pack whose first entry is missing from the
pack's own index and whose second entry sits at a different offset there. -/
def c3File : MultiIndexFile :=
  { path_has_parent := true, stored_checksum := 0, content_hash := 0,
    fan_table := [], entries := [(4, 0, 10), (6, 0, 20)], index_names := ["p0"] }

/-- The pack index fixture for C3: oid 4 absent, oid 6 present at offset
99 instead of 20. -/
def c3Bundle : BundleIndex := [(6, 99)]

/-- Witness for C3: both failure shapes at concrete entries — entry 0's
oid is not found, and entry 1 (after entry replacement) mismatches on
offset. -/
theorem claim_C3_witness :
    checkEntries c3File c3Bundle ([] ++ 0 :: [1]) =
      .error (.processor (.oidNotFound 4)) ∧
    checkEntries c3File c3Bundle ([] ++ 1 :: []) =
      .error (.processor (.packOffsetMismatch 6 20 99)) :=
  ⟨(claim_C3 c3File c3Bundle [] 0 [1] rfl).1 rfl,
   (claim_C3 c3File c3Bundle [] 1 [] rfl).2 0 rfl (by decide)⟩

/-- Cancellation-flag history for the C2 scenarios: the flag is clear at
the checksum pass (sampling point 0) and set at every later sampling point,
i.e. it is set from before the per-entry lookup loop onwards. -/
def c2Itr (k : Nat) : Bool := decide (1 ≤ k)

/-- A multi-index over one pack whose single entry records offset 10 while
the pack's own index holds that oid at offset 99. -/
def c2File : MultiIndexFile :=
  { path_has_parent := true, stored_checksum := 0, content_hash := 0,
    fan_table := [], entries := [(7, 0, 10)], index_names := ["p0"] }

/-- Environment for the C2 scenarios: pack 0's index holds oid 7 at offset
99. -/
def c2Env : Env :=
  { bundles := fun _ => .ok [(7, 99)], bundleVerify := fun _ => .ok 0 }

/-- Counterexample to C2 as stated: with the cancellation flag set at every
sampling point after the checksum pass — so set before and during the
per-entry lookup loop — the run does not terminate with the dedicated
cancellation signal: the per-entry loop samples no flag, completes its
lookups and surfaces a `PackOffsetMismatch` instead. -/
theorem claim_C2_counterexample :
    c2Itr 0 = false ∧ c2Itr 1 = true ∧
    verify_integrity c2File c2Env c2Itr =
      .err (.processor (.packOffsetMismatch 7 10 99)) :=
  ⟨rfl, rfl, rfl⟩

/-- C2 (amended): the per-entry lookup loop itself never samples the
cancellation flag; a flag set before or during that loop is first observed
at the next sampling point, the delegated single-pack verification of the
pack whose entries were just checked. When the current pack's per-entry
checks all pass, the run then terminates with the dedicated, unwrapped
`Interrupted` signal without completing the remaining packs — but only
after completing the current pack's per-entry checks, whose own errors
would take precedence. -/
theorem claim_C2_amended (f : MultiIndexFile) (env : Env) (itr : Nat → Bool)
    (pairs : List (Nat × Nat)) (b0 : BundleIndex)
    (hparent : f.path_has_parent = true)
    (hck : f.stored_checksum = f.content_hash)
    (hitr0 : itr 0 = false)
    (hfan : fanCheck f.fan_table = none)
    (hn0 : f.num_objects ≠ 0)
    (hcollect : oidOrderCollect f = .ok pairs)
    (hnames : f.index_names.length ≠ 0)
    (hb0 : env.bundles 0 = .ok b0)
    (hentries : checkEntries f b0
      (((sortByPackId pairs).take
          (partitionPoint (fun e => e.1 == 0) (sortByPackId pairs))).map
        (fun e => e.2)) = .ok ())
    (hitr1 : itr 1 = true) :
    verify_integrity f env itr = .err .interrupted := by
  obtain ⟨m, hm⟩ : ∃ m, f.index_names.length = m + 1 :=
    ⟨f.index_names.length - 1, by omega⟩
  have hrange : List.range f.index_names.length =
      0 :: (List.range m).map Nat.succ := by
    rw [hm, List.range_succ_eq_map]
  have hloop : packLoop f env itr (List.range f.index_names.length)
      (sortByPackId pairs) 0 [] = .error .interrupted := by
    rw [hrange]
    rw [packLoop, hb0]
    rw [List.map_take] at hentries
    simp [hentries, Env.bundleVerifyAt, hitr1, Except.mapError, mapBundleError]
  simp [verify_integrity, hparent, MultiIndexFile.verify_checksum,
        checksum_on_disk_or_mmap, hitr0, hck, hfan, hn0, hcollect, hloop]

/-- A clean single-entry multi-index agreeing with its pack index, used to
run the amended C2 scenario to the delegated verification. -/
def c2OkFile : MultiIndexFile :=
  { path_has_parent := true, stored_checksum := 0, content_hash := 0,
    fan_table := [], entries := [(7, 0, 99)], index_names := ["p0"] }

/-- Witness for the amended C2: with offsets agreeing, the same
cancellation history makes the run stop at pack 0's delegated verification
with the unwrapped `Interrupted` signal. -/
theorem claim_C2_amended_witness :
    verify_integrity c2OkFile c2Env c2Itr = .err .interrupted :=
  claim_C2_amended c2OkFile c2Env c2Itr [(0, 0)] [(7, 99)]
    rfl rfl rfl rfl (by decide) rfl (by decide) rfl rfl rfl

/-- A multi-index whose single entry names pack id 5 although only one
pack (pack id 0) is listed: the cross-reference slicing attributes 0
entries in total against a declared count of 1. -/
def c1File : MultiIndexFile :=
  { path_has_parent := true, stored_checksum := 0, content_hash := 0,
    fan_table := [], entries := [(1, 5, 0)], index_names := ["p0"] }

/-- Counterexample to C1 as stated: on a concrete input where the sum of
entries attributed to the packs (0) differs from `num_objects` (1),
`verify_integrity` does not return any error value — in particular not
`UnexpectedObjectCount` — but dies in the `assert_eq!` panic. -/
theorem claim_C1_counterexample :
    oidOrderCollect c1File = .ok [(5, 0)] ∧
    packLoop c1File envTriv itrOff [0] [(5, 0)] 0 [] = .ok (0, [0]) ∧
    c1File.num_objects = 1 ∧
    verify_integrity c1File envTriv itrOff =
      .panicked "BUG: our slicing should allow to visit all objects" :=
  ⟨rfl, rfl, rfl, rfl⟩

/-- C1 (amended): when, after all packs listed in `index_names` have been
processed, the sum of entries attributed to (and checked against) each pack
differs from `num_objects`, `verify_integrity` does not surface a
reportable error value: it aborts the process via the `assert_eq!`
invariant with message "BUG: our slicing should allow to visit all
objects". The `UnexpectedObjectCount` variant exists in the error type but
is never produced by this path. -/
theorem claim_C1_amended (f : MultiIndexFile) (env : Env) (itr : Nat → Bool)
    (pairs : List (Nat × Nat)) (c total : Nat) (outs : List Nat)
    (hparent : f.path_has_parent = true)
    (hck : f.verify_checksum (itr 0) = .ok c)
    (hfan : fanCheck f.fan_table = none)
    (hn0 : f.num_objects ≠ 0)
    (hcollect : oidOrderCollect f = .ok pairs)
    (hloop : packLoop f env itr (List.range f.index_names.length)
      (sortByPackId pairs) 0 [] = .ok (total, outs))
    (hmismatch : total ≠ f.num_objects) :
    verify_integrity f env itr =
      .panicked "BUG: our slicing should allow to visit all objects" := by
  have hne : f.num_objects ≠ total := Ne.symm hmismatch
  simp [verify_integrity, hparent, hck, hfan, hn0, hcollect, hloop, hne]

/-- Witness for the amended C1 at the mis-attributed fixture. -/
theorem claim_C1_amended_witness :
    verify_integrity c1File envTriv itrOff =
      .panicked "BUG: our slicing should allow to visit all objects" :=
  claim_C1_amended c1File envTriv itrOff [(5, 0)] 0 0 [0]
    rfl rfl rfl (by decide) rfl rfl (by decide)

/-- An error-mapped result that is `ok` was already `ok` before mapping. -/
theorem mapError_eq_ok {ε ε' α : Type} (g : ε → ε') (x : Except ε α) (a : α)
    (h : x.mapError g = .ok a) : x = .ok a := by
  cases x with
  | error e => simp [Except.mapError] at h
  | ok b => simpa [Except.mapError] using h

/-- A delegated verification that completed with `ok` was not interrupted
at its sampling point and is the environment's uninterrupted result. -/
theorem bundleVerifyAt_eq_ok (env : Env) (itr : Nat → Bool) (p o : Nat)
    (h : env.bundleVerifyAt itr p = .ok o) :
    itr (p + 1) = false ∧ env.bundleVerify p = .ok o := by
  unfold Env.bundleVerifyAt at h
  cases hi : itr (p + 1) with
  | false => rw [hi] at h; simp at h; exact ⟨rfl, h⟩
  | true => rw [hi] at h; simp at h

/-- A checksum pass that returned `ok c` was not interrupted, found the
stored and recomputed hashes equal, and returned the stored hash. -/
theorem verify_checksum_ok (f : MultiIndexFile) (b : Bool) (c : Nat)
    (h : f.verify_checksum b = .ok c) :
    f.stored_checksum = f.content_hash ∧ c = f.stored_checksum ∧ b = false := by
  unfold MultiIndexFile.verify_checksum checksum_on_disk_or_mmap at h
  cases b with
  | true => simp at h
  | false =>
    by_cases hsc : f.stored_checksum = f.content_hash
    · simp [hsc] at h
      exact ⟨hsc, by rw [hsc, h], rfl⟩
    · simp [hsc] at h

/-- Successful completion of the per-pack loop: the collected outcome list
extends the accumulator by exactly one delegated traversal outcome per
processed pack, in pack order, and every processed pack's bundle was
opened and its delegated verification ran uninterrupted and succeeded. -/
theorem packLoop_ok_spec (f : MultiIndexFile) (env : Env) (itr : Nat → Bool) :
    ∀ (packs : List Nat) (slice : List (Nat × Nat)) (total total' : Nat)
      (outs res : List Nat),
      packLoop f env itr packs slice total outs = .ok (total', res) →
      ∃ tail, res = outs ++ tail ∧ tail.length = packs.length ∧
        ∀ k (hk : k < packs.length),
          ∃ b o, env.bundles (packs.get ⟨k, hk⟩) = .ok b ∧
            env.bundleVerify (packs.get ⟨k, hk⟩) = .ok o ∧
            itr (packs.get ⟨k, hk⟩ + 1) = false ∧
            tail.get? k = some o := by
  intro packs
  induction packs with
  | nil =>
    intro slice total total' outs res h
    rw [packLoop] at h
    injection h with h'
    injection h' with h1 h2
    subst h2
    exact ⟨[], by simp, rfl, fun k hk => absurd hk (by simp)⟩
  | cons p rest ih =>
    intro slice total total' outs res h
    simp only [packLoop] at h
    split at h
    · exact absurd h (by simp)
    next bundle heqb =>
      split at h
      · exact absurd h (by simp)
      next u heqc =>
        split at h
        · exact absurd h (by simp)
        next outcome heqv =>
          obtain ⟨tail', hres, hlen, hall⟩ := ih _ _ _ _ _ h
          obtain ⟨hitrp, hbv⟩ :=
            bundleVerifyAt_eq_ok env itr p outcome
              (mapError_eq_ok mapBundleError _ outcome heqv)
          refine ⟨outcome :: tail', ?_, by simp [hlen], ?_⟩
          · rw [hres]; simp
          · intro k hk
            cases k with
            | zero => exact ⟨bundle, outcome, heqb, hbv, hitrp, rfl⟩
            | succ k =>
              obtain ⟨b, o, h1, h2, h3, h4⟩ := hall k (by simpa using hk)
              exact ⟨b, o, h1, h2, h3, h4⟩

/-- C7: on success, `verify_integrity` returns an outcome whose
`pack_traverse_outcomes` holds exactly one per-pack traversal outcome for
every entry of `index_names`, position-aligned with the pack id, each being
the outcome of that pack's own delegated single-pack verification over its
opened bundle — including packs with zero attributed entries — together
with the validated multi-index checksum. -/
theorem claim_C7 (f : MultiIndexFile) (env : Env) (itr : Nat → Bool)
    (out : MultiOutcome) (h : verify_integrity f env itr = .ok out) :
    out.actual_index_checksum = f.stored_checksum ∧
    out.pack_traverse_outcomes.length = f.index_names.length ∧
    ∀ k (hk : k < f.index_names.length),
      ∃ b o, env.bundles k = .ok b ∧ env.bundleVerify k = .ok o ∧
        itr (k + 1) = false ∧
        out.pack_traverse_outcomes.get? k = some o := by
  unfold verify_integrity at h
  split at h
  · exact absurd h (by simp)
  split at h
  · exact absurd h (by simp)
  next c heqc =>
    split at h
    · exact absurd h (by simp)
    split at h
    · exact absurd h (by simp)
    split at h
    · exact absurd h (by simp)
    next pairs heqp =>
      split at h
      · exact absurd h (by simp)
      next total outs heql =>
        split at h
        all_goals rename_i hcount
        · obtain ⟨tail, htail, hlen, hall⟩ :=
            packLoop_ok_spec f env itr _ _ _ _ _ _ heql
          have hout : out = { actual_index_checksum := c,
                              pack_traverse_outcomes := outs } := by
            cases h; rfl
          obtain ⟨hsc, hc, _⟩ := verify_checksum_ok f (itr 0) c heqc
          subst hout
          refine ⟨hc, ?_, ?_⟩
          · simp [htail, hlen]
          · intro k hk
            have hk' : k < (List.range f.index_names.length).length := by
              simpa using hk
            obtain ⟨b, o, h1, h2, h3, h4⟩ := hall k hk'
            rw [List.get_range] at h1 h2 h3
            refine ⟨b, o, h1, h2, h3, ?_⟩
            simp only [htail, List.nil_append]
            exact h4
        · exact absurd h (by simp)

/-- A clean two-pack multi-index agreeing with both pack indices. -/
def c7File : MultiIndexFile :=
  { path_has_parent := true, stored_checksum := 7, content_hash := 7,
    fan_table := [0, 2], entries := [(1, 0, 10), (2, 1, 20)],
    index_names := ["a", "b"] }

/-- Environment for C7: both bundles open and verify, with distinct
delegated outcomes 100 and 101. -/
def c7Env : Env :=
  { bundles := fun i => if i = 0 then .ok [(1, 10)] else .ok [(2, 20)],
    bundleVerify := fun i => .ok (100 + i) }

/-- The outcome `verify_integrity` produces on the C7 fixture. -/
def c7Out : MultiOutcome :=
  { actual_index_checksum := 7, pack_traverse_outcomes := [100, 101] }

/-- Witness for C7 at a concrete successful two-pack run. -/
theorem claim_C7_witness :
    c7Out.actual_index_checksum = c7File.stored_checksum ∧
    c7Out.pack_traverse_outcomes.length = c7File.index_names.length ∧
    ∀ k (hk : k < c7File.index_names.length),
      ∃ b o, c7Env.bundles k = .ok b ∧ c7Env.bundleVerify k = .ok o ∧
        itrOff (k + 1) = false ∧
        c7Out.pack_traverse_outcomes.get? k = some o :=
  claim_C7 c7File c7Env itrOff c7Out rfl

end Gitoxide

